import Mathlib

/-!
Verification of the weather acquisition / caching / redraw subsystem of
plane-tracker-rgb-pi.  Times are modelled as integer numbers of seconds
(`ℤ`), the granularity at which the source compares clocks; the Python
module-level globals become explicit state records that
every operation threads through.  Network I/O is modelled by an oracle
(`Nat → ...`) giving the response of each successive request, and each
operation's outcome records, besides its return value and the new state,
the observable effects: requests issued, total backoff slept, and how many
times the rate limiter was consulted.
-/

namespace PlaneTracker

/-- State of the module-level rate limiter globals in
`utilities/temperature.py` (`_last_api_call_time`, `_api_calls_this_hour`,
`_hour_start_time`). -/
structure RateState where
  lastApiCallTime : Option ℤ
  apiCallsThisHour : Nat
  hourStartTime : Option ℤ
deriving DecidableEq

/-- The globals at process start: all `None` / `0`. -/
def initRateState : RateState := ⟨none, 0, none⟩

/-- Lines 56-58 of `utilities/temperature.py`: lazily reset the window when
`_hour_start_time` is unset or at least 3600 seconds old. -/
def resetWindow (s : RateState) (now : ℤ) : RateState :=
  match s.hourStartTime with
  | none => { s with hourStartTime := some now, apiCallsThisHour := 0 }
  | some h =>
    if 3600 ≤ now - h then { s with hourStartTime := some now, apiCallsThisHour := 0 }
    else s

/-- `_check_rate_limit` (utilities/temperature.py lines 49-72), with the
hour quota (25 in the source) and the minimum spacing (1 second in the
source) as parameters.  Returns the decision, the updated globals, and the
seconds slept before returning; the source sleeps a fixed `spacing` seconds
when the previous call was under `spacing` seconds ago, and — exactly as the
source does — stores the PRE-sleep `now` into `lastApiCallTime`. -/
def checkRateLimit (quota : Nat) (spacing : ℤ) (s : RateState) (now : ℤ) :
    Bool × RateState × ℤ :=
  let s1 := resetWindow s now
  if quota ≤ s1.apiCallsThisHour then (false, s1, 0)
  else
    let slp : ℤ :=
      match s1.lastApiCallTime with
      | some t => if now - t < spacing then spacing else 0
      | none => 0
    (true, { s1 with lastApiCallTime := some now, apiCallsThisHour := s1.apiCallsThisHour + 1 }, slp)

/-- Run a sequence of `_check_rate_limit` calls at the given arrival times,
collecting the boolean results. -/
def runPermits (quota : Nat) (spacing : ℤ) : RateState → List ℤ → List Bool
  | _, [] => []
  | s, t :: ts =>
    let p := checkRateLimit quota spacing s t
    p.1 :: runPermits quota spacing p.2.1 ts

/-- Run a sequence of `_check_rate_limit` calls at the given arrival times,
collecting each call's result together with the simulated time at which the
call returns (arrival plus any sleep performed inside the call). -/
def runPermitsTimed (quota : Nat) (spacing : ℤ) : RateState → List ℤ → List (Bool × ℤ)
  | _, [] => []
  | s, t :: ts =>
    let p := checkRateLimit quota spacing s t
    (p.1, t + p.2.2) :: runPermitsTimed quota spacing p.2.1 ts

/-- Outcome of one realtime-weather HTTP exchange as the code observes it:
either an exception (`requests` transport error, non-2xx status, or invalid
JSON — all caught together on line 124 of `utilities/temperature.py`), or a
parsed `data.values` object whose `temperature` and `humidity` fields may
each be absent (`dict.get` returning `None`). -/
inductive TempNet where
  | failure
  | values (temperature humidity : Option ℤ)

/-- Everything observable about one `grab_temperature_and_humidity` call:
the returned pair (`none` stands for the `(None, None)` return), the
updated rate-limiter globals, the updated temperature cache globals
(`_cached_temp_data`, `_last_temp_fetch_time`), the `apikey` parameter of
each HTTP request actually issued, the total seconds slept, and how many
times `_check_rate_limit` was invoked. -/
structure TempOutcome where
  result : Option (ℤ × ℤ)
  rate : RateState
  cachedTempData : Option (ℤ × ℤ)
  lastTempFetchTime : Option ℤ
  requests : List (Option Nat)
  sleepSecs : ℤ
  permits : Nat
deriving DecidableEq

/-- The cache test on lines 80-81 of `utilities/temperature.py`:
`_cached_temp_data and _last_temp_fetch_time and (now - _last_temp_fetch_time)
.total_seconds() < TEMP_CACHE_DURATION` (a cached tuple is always truthy). -/
def tempCacheFresh (cd : Option (ℤ × ℤ)) (lt : Option ℤ) (ttl now : ℤ) : Bool :=
  match cd, lt with
  | some _, some t => decide (now - t < ttl)
  | _, _ => false

/-- The retry loop of `grab_temperature_and_humidity` (lines 87-132).
`fuel` is `max_retries - retries`; `i` indexes the network oracle; `now0`
is the `now` captured once at the top of the function (the timestamp stored
into the cache on success).  Each round consults `_check_rate_limit`
(hard-coded quota 25, spacing 1) and, on refusal, returns the cached data
immediately; otherwise it issues the request.  A missing `temperature` or
`humidity` field is replaced by the sentinel 0 (lines 110-116); on success
both cache globals are overwritten together and the pair returned.  On an
exception the code retries after sleeping `delay` seconds, except after the
final round, and when the loop exhausts it returns the cached data.  The
per-round handling after a granted permit lives in `tempRoundAfterPermit`;
the recursion's continuation is passed as the `rest` argument, which is
consulted only in the failure-with-rounds-remaining case. -/
def tempRoundAfterPermit (delay : ℤ) (apikey : Option Nat) (net : TempNet) (now0 : ℤ)
    (cd : Option (ℤ × ℤ)) (lt : Option ℤ) (rs1 : RateState) (slp : ℤ)
    (fuel : Nat) (rest : TempOutcome) : TempOutcome :=
  match net with
  | TempNet.values t h =>
    ⟨some (t.getD 0, h.getD 0), rs1, some (t.getD 0, h.getD 0), some now0, [apikey], slp, 1⟩
  | TempNet.failure =>
    match fuel with
    | 0 => ⟨cd, rs1, cd, lt, [apikey], slp, 1⟩
    | _ + 1 =>
      ⟨rest.result, rest.rate, rest.cachedTempData, rest.lastTempFetchTime,
        apikey :: rest.requests, slp + delay + rest.sleepSecs, rest.permits + 1⟩

def grabTempRounds (delay : ℤ) (apikey : Option Nat) (oracle : Nat → TempNet)
    (times : Nat → ℤ) (now0 : ℤ) :
    Nat → Nat → RateState → Option (ℤ × ℤ) → Option ℤ → TempOutcome
  | 0, _, rs, cd, lt => ⟨cd, rs, cd, lt, [], 0, 0⟩
  | fuel + 1, i, rs, cd, lt =>
    let p := checkRateLimit 25 1 rs (times i)
    if p.1 then
      tempRoundAfterPermit delay apikey (oracle i) now0 cd lt p.2.1 p.2.2 fuel
        (grabTempRounds delay apikey oracle times now0 fuel (i + 1) p.2.1 cd lt)
    else ⟨cd, p.2.1, cd, lt, [], p.2.2, 1⟩

/-- `grab_temperature_and_humidity` (utilities/temperature.py lines 75-132):
if the 300-second cache is fresh, return it with no other effect; otherwise
run the retry loop. -/
def grabTempHumidity (delay : ℤ) (maxRetries : Nat) (apikey : Option Nat)
    (oracle : Nat → TempNet) (times : Nat → ℤ) (now : ℤ)
    (rs : RateState) (cd : Option (ℤ × ℤ)) (lt : Option ℤ) : TempOutcome :=
  if tempCacheFresh cd lt 300 now then ⟨cd, rs, cd, lt, [], 0, 0⟩
  else grabTempRounds delay apikey oracle times now maxRetries 0 rs cd lt

/-- The per-day `values` object of a forecast interval as requested on
lines 160-167 of `utilities/temperature.py`; each field may be absent from
the response. -/
structure IntervalValues where
  temperatureMin : Option ℤ
  temperatureMax : Option ℤ
  weatherCodeFullDay : Option Nat
  sunriseTime : Option ℤ
  sunsetTime : Option ℤ
  moonPhase : Option Nat
deriving DecidableEq

/-- One forecast interval (`intervals` element): a start time and the
per-day values. -/
structure Interval where
  startTime : ℤ
  values : IntervalValues
deriving DecidableEq

/-- Outcome of one timelines HTTP exchange: an exception (transport error or
non-2xx status), or a JSON body whose `data.timelines` is a list of
timelines, each carrying its `intervals` list. -/
inductive ForecastNet where
  | failure
  | response (timelines : List (List Interval))

/-- Everything observable about one `grab_forecast`
(utilities/temperature.py) call: the returned interval list (or `None`),
the updated rate-limiter globals, requests issued, seconds slept, and
`_check_rate_limit` invocations. -/
structure FcOutcome where
  result : Option (List Interval)
  rate : RateState
  netCalls : Nat
  sleepSecs : ℤ
  permits : Nat
deriving DecidableEq

/-- The retry loop of `grab_forecast` (utilities/temperature.py lines
135-200).  Each round consults `_check_rate_limit` and on refusal returns
`None` immediately (line 142 — this function keeps no cache).  If permitted
it issues the request; an exception, an empty `timelines` list or an empty
`intervals` list (both raised as `KeyError`, lines 181-187) all land in the
same handler, which sleeps `delay` seconds and retries unless the rounds
are exhausted, in which case the function returns `None`.  On success the
intervals are returned exactly as received — no field is inspected or
substituted.  The per-round handling after a granted permit lives in
`fcRoundAfterPermit`; the recursion's continuation is passed as `rest` and
consulted only when a failed round still has rounds remaining. -/
def fcRoundAfterPermit (delay : ℤ) (net : ForecastNet) (rs1 : RateState) (slp : ℤ)
    (fuel : Nat) (rest : FcOutcome) : FcOutcome :=
  let onFail : FcOutcome :=
    match fuel with
    | 0 => ⟨none, rs1, 1, slp, 1⟩
    | _ + 1 =>
      ⟨rest.result, rest.rate, rest.netCalls + 1, slp + delay + rest.sleepSecs,
        rest.permits + 1⟩
  match net with
  | ForecastNet.failure => onFail
  | ForecastNet.response tls =>
    match tls with
    | [] => onFail
    | ivs :: _ =>
      match ivs with
      | [] => onFail
      | _ :: _ => ⟨some ivs, rs1, 1, slp, 1⟩

def grabForecastRounds (delay : ℤ) (oracle : Nat → ForecastNet) (times : Nat → ℤ) :
    Nat → Nat → RateState → FcOutcome
  | 0, _, rs => ⟨none, rs, 0, 0, 0⟩
  | fuel + 1, i, rs =>
    let p := checkRateLimit 25 1 rs (times i)
    if p.1 then
      fcRoundAfterPermit delay (oracle i) p.2.1 p.2.2 fuel
        (grabForecastRounds delay oracle times fuel (i + 1) p.2.1)
    else ⟨none, p.2.1, 0, p.2.2, 1⟩

/-- `grab_forecast` of `utilities/temperature.py` (default `max_retries=3`):
just the retry loop — this variant consults no cache at all. -/
def grabForecast (delay : ℤ) (oracle : Nat → ForecastNet) (times : Nat → ℤ)
    (maxRetries : Nat) (rs : RateState) : FcOutcome :=
  grabForecastRounds delay oracle times maxRetries 0 rs

/-- Everything observable about one `grab_forecast` call of
`scenes/temperature.py`: the returned interval list (or `None`), the updated
module cache globals (`_cached_forecast`, `_last_forecast_time`), requests
issued and seconds slept. -/
structure SceneFcOutcome where
  result : Option (List Interval)
  cachedForecast : Option (List Interval)
  lastForecastTime : Option ℤ
  netCalls : Nat
  sleepSecs : ℤ
deriving DecidableEq

/-- The cache test on line 43 of `scenes/temperature.py`:
`_cached_forecast and _last_forecast_time and (now - _last_forecast_time) <
CACHE_DURATION` with `CACHE_DURATION` one hour; an empty cached list is
falsy in Python, so it also forces a refetch. -/
def sceneFcFresh (cached : Option (List Interval)) (lastTime : Option ℤ) (now : ℤ) : Bool :=
  match cached, lastTime with
  | some f, some t => !f.isEmpty && decide (now - t < 3600)
  | _, _ => false

/-- `grab_forecast` of `scenes/temperature.py` (lines 38-95): if the
one-hour cache is fresh, return it; otherwise issue one request (there is
no retry loop here).  On success overwrite both cache globals and return
the intervals; on an exception — including the `KeyError` raised for an
empty `timelines` or `intervals` — sleep `delay` seconds and return
whatever `_cached_forecast` holds, stale or `None`. -/
def sceneGrabForecast (delay : ℤ) (net : ForecastNet) (now : ℤ)
    (cached : Option (List Interval)) (lastTime : Option ℤ) : SceneFcOutcome :=
  if sceneFcFresh cached lastTime now then ⟨cached, cached, lastTime, 0, 0⟩
  else
    match net with
    | ForecastNet.failure => ⟨cached, cached, lastTime, 1, delay⟩
    | ForecastNet.response tls =>
      match tls with
      | [] => ⟨cached, cached, lastTime, 1, delay⟩
      | ivs :: _ =>
        match ivs with
        | [] => ⟨cached, cached, lastTime, 1, delay⟩
        | _ :: _ => ⟨some ivs, some ivs, some now, 1, 0⟩

/-- The temperature-refetch test on line 81 of `scenes/daysforecast.py`:
`not self._last_temp_fetch or (now - self._last_temp_fetch).seconds > 300`.
Python's `timedelta.seconds` is the seconds component after whole days are
split off, i.e. the elapsed seconds modulo 86400. -/
def dayNeedsTempRefetch (lastFetch : Option ℤ) (now : ℤ) : Bool :=
  match lastFetch with
  | none => true
  | some t => decide (300 < (now - t) % 86400)

/-- Line 76 of `scenes/daysforecast.py`: use the scene-held forecast if it
is nonempty and no redraw was forced, otherwise take whatever the fetch
returned; line 77 stores the result back into `self._cached_forecast`. -/
def dayFetchForecast (cached : Option (List Interval)) (redraw : Bool)
    (fetched : Option (List Interval)) : Option (List Interval) :=
  match cached with
  | some f => if !f.isEmpty && !redraw then some f else fetched
  | none => fetched

/-- The redraw bookkeeping of `DaysForecastScene`
(`scenes/daysforecast.py` lines 48-54): `self._redraw_forecast` starts true
and `self._last_hour` starts `None`. -/
structure DayState where
  redrawForecast : Bool
  lastHour : Option Nat
deriving DecidableEq

/-- The scene state right after `__init__`. -/
def initDayState : DayState := ⟨true, none⟩

/-- The redraw decision of one `DaysForecastScene.day` tick (lines 56-78),
projected onto its observable decision: the returned boolean is true
exactly when the body that clears and redraws the forecast area runs.  A
tick at the exact night-start or night-end second, or with flight data on
screen, returns early after forcing a redraw for a later tick; otherwise
the body runs when the wall-clock hour changed or a redraw was forced, and
resets the forced flag. -/
def dayTick (nightStart nightEnd : Nat) (secOfDay : Nat) (dataCount : Nat)
    (st : DayState) : DayState × Bool :=
  if secOfDay = nightStart ∨ secOfDay = nightEnd then (⟨true, st.lastHour⟩, false)
  else if dataCount ≠ 0 then (⟨true, st.lastHour⟩, false)
  else
    let h := secOfDay / 3600
    if st.lastHour ≠ some h ∨ st.redrawForecast = true then (⟨false, some h⟩, true)
    else (st, false)

/-- A sample forecast interval with every field present. -/
def ivSample : Interval := ⟨0, ⟨some 10, some 21, some 1000, some 21600, some 79200, some 0⟩⟩

/-- A sample forecast interval whose `temperatureMax` field is absent. -/
def ivNoMax : Interval := ⟨0, ⟨some 10, none, some 1000, some 21600, some 79200, some 0⟩⟩

/-- Unfolding equation for `runPermits` on a nonempty list. -/
theorem runPermits_cons (quota : Nat) (spacing : ℤ) (s : RateState) (t : ℤ) (ts : List ℤ) :
    runPermits quota spacing s (t :: ts)
      = (checkRateLimit quota spacing s t).1
        :: runPermits quota spacing (checkRateLimit quota spacing s t).2.1 ts := rfl

/-- When no window reset fires and the counter has reached the quota, the
limiter refuses, leaves the state untouched and sleeps nothing. -/
theorem checkRateLimit_refused (quota : Nat) (spacing : ℤ) (s : RateState) (now : ℤ)
    (h1 : resetWindow s now = s) (h2 : quota ≤ s.apiCallsThisHour) :
    checkRateLimit quota spacing s now = (false, s, 0) := by
  unfold checkRateLimit
  rw [h1, if_pos h2]

/-- When no window reset fires and the counter is below the quota, the
limiter grants: it records `now` and increments the counter. -/
theorem checkRateLimit_granted (quota : Nat) (spacing : ℤ) (s : RateState) (now : ℤ)
    (h1 : resetWindow s now = s) (h2 : ¬ quota ≤ s.apiCallsThisHour) :
    (checkRateLimit quota spacing s now).1 = true ∧
    (checkRateLimit quota spacing s now).2.1
      = { s with lastApiCallTime := some now, apiCallsThisHour := s.apiCallsThisHour + 1 } := by
  unfold checkRateLimit
  rw [h1, if_neg h2]
  exact ⟨rfl, rfl⟩

/-- No reset fires while the stored window start is under 3600 s old. -/
theorem resetWindow_within (s : RateState) (now t0 : ℤ)
    (hs : s.hourStartTime = some t0) (hb : now - t0 < 3600) :
    resetWindow s now = s := by
  unfold resetWindow
  rw [hs]
  exact if_neg (not_le.mpr hb)

/-- Within one window (all arrival times under 3600 s past the recorded
window start), the count of granted calls plus the starting counter stays
at or below the quota. -/
theorem runPermits_count_le (quota : Nat) (spacing : ℤ) :
    ∀ (ts : List ℤ) (s : RateState) (t0 : ℤ),
      s.hourStartTime = some t0 → (∀ t ∈ ts, t - t0 < 3600) →
      s.apiCallsThisHour ≤ quota →
      (runPermits quota spacing s ts).count true + s.apiCallsThisHour ≤ quota := by
  intro ts
  induction ts with
  | nil =>
    intro s t0 hs hb hle
    simpa [runPermits] using hle
  | cons t ts ih =>
    intro s t0 hs hb hle
    have hbt : t - t0 < 3600 := hb t (List.mem_cons_self t ts)
    have hreset : resetWindow s t = s := resetWindow_within s t t0 hs hbt
    rw [runPermits_cons]
    by_cases hq : quota ≤ s.apiCallsThisHour
    · rw [checkRateLimit_refused quota spacing s t hreset hq]
      have := ih s t0 hs (fun x hx => hb x (List.mem_cons_of_mem t hx)) hle
      simpa [List.count_cons] using this
    · obtain ⟨hfst, hsnd⟩ := checkRateLimit_granted quota spacing s t hreset hq
      rw [hfst, hsnd]
      have := ih { s with lastApiCallTime := some t, apiCallsThisHour := s.apiCallsThisHour + 1 }
        t0 hs (fun x hx => hb x (List.mem_cons_of_mem t hx)) (by simpa using hq)
      simp [List.count_cons] at this ⊢
      omega

/-- The very first `_check_rate_limit` call on the fresh module state sets
the window start to its own time, grants, and performs no sleep. -/
theorem checkRateLimit_init (quota : Nat) (spacing : ℤ) (t0 : ℤ) (hq : 0 < quota) :
    checkRateLimit quota spacing initRateState t0 = (true, ⟨some t0, 1, some t0⟩, 0) := by
  unfold checkRateLimit resetWindow initRateState
  simp [Nat.not_le.mpr hq]

/-- C1: for every sequence of `_check_rate_limit` calls whose timestamps all
fall within one rolling hour of the window start (the first call's time),
the number of calls that return true never exceeds the quota of 25; and with
quota 2 and minimum spacing 0, three consecutive calls in the same hour
yield exactly `[true, true, false]` (a refused call consumes no slot). -/
theorem rate_quota_c1 :
    (∀ (t0 : ℤ) (ts : List ℤ), (∀ t ∈ ts, t - t0 < 3600) →
      (runPermits 25 1 initRateState (t0 :: ts)).count true ≤ 25) ∧
    (∀ t0 t1 t2 : ℤ, t1 - t0 < 3600 → t2 - t0 < 3600 →
      runPermits 2 0 initRateState [t0, t1, t2] = [true, true, false]) := by
  constructor
  · intro t0 ts hb
    rw [runPermits_cons, checkRateLimit_init 25 1 t0 (by norm_num)]
    have := runPermits_count_le 25 1 ts ⟨some t0, 1, some t0⟩ t0 rfl hb (by norm_num)
    simp [List.count_cons] at this ⊢
    omega
  · intro t0 t1 t2 h1 h2
    rw [runPermits_cons, checkRateLimit_init 2 0 t0 (by norm_num)]
    rw [runPermits_cons]
    have hr1 : resetWindow ⟨some t0, 1, some t0⟩ t1 = ⟨some t0, 1, some t0⟩ :=
      resetWindow_within _ t1 t0 rfl h1
    obtain ⟨ha, hb2⟩ := checkRateLimit_granted 2 0 ⟨some t0, 1, some t0⟩ t1 hr1 (by simp)
    rw [ha, hb2]
    rw [runPermits_cons]
    have hr2 : resetWindow ⟨some t1, 1 + 1, some t0⟩ t2 = ⟨some t1, 1 + 1, some t0⟩ :=
      resetWindow_within _ t2 t0 rfl h2
    rw [checkRateLimit_refused 2 0 _ t2 hr2 (by simp)]
    rfl

/-- C1 witness: the quota bound and the quota-2 scenario at concrete times. -/
theorem rate_quota_c1_witness :
    (runPermits 25 1 initRateState [0, 10]).count true ≤ 25 ∧
    runPermits 2 0 initRateState [0, 1, 2] = [true, true, false] := by
  refine ⟨rate_quota_c1.1 0 [10] ?_, rate_quota_c1.2 0 1 2 (by norm_num) (by norm_num)⟩
  intro t ht
  rw [List.mem_singleton] at ht
  subst ht
  norm_num

/-- C2: evaluating `_check_rate_limit` on the consecutive-call trace with
arrivals at simulated seconds 0, 0 and 1 — each arrival being exactly the
previous call's return time, i.e. a caller looping as fast as permitted.
All three calls are granted; the second sleeps 1 s and returns at t = 1, yet
records its PRE-sleep timestamp 0, so the third call at t = 1 sees an
apparent gap of 1 s, does not sleep, and also returns at t = 1: two granted
calls return 0 seconds apart, violating the minimum 1-second spacing the
code's own comment promises. -/
theorem rate_spacing_trace_c2 :
    runPermitsTimed 25 1 initRateState [0, 0, 1]
      = [(true, 0), (true, 1), (true, 1)] := by decide

/-- Unfolding equation for one round of the rate-limited `grab_forecast`
retry loop. -/
theorem grabForecastRounds_succ (delay : ℤ) (oracle : Nat → ForecastNet)
    (times : Nat → ℤ) (fuel i : Nat) (rs : RateState) :
    grabForecastRounds delay oracle times (fuel + 1) i rs
      = (if (checkRateLimit 25 1 rs (times i)).1 then
          fcRoundAfterPermit delay (oracle i) (checkRateLimit 25 1 rs (times i)).2.1
            (checkRateLimit 25 1 rs (times i)).2.2 fuel
            (grabForecastRounds delay oracle times fuel (i + 1)
              (checkRateLimit 25 1 rs (times i)).2.1)
        else ⟨none, (checkRateLimit 25 1 rs (times i)).2.1, 0,
          (checkRateLimit 25 1 rs (times i)).2.2, 1⟩) := rfl

/-- Unfolding equation for one round of the `grab_temperature_and_humidity`
retry loop. -/
theorem grabTempRounds_succ (delay : ℤ) (apikey : Option Nat) (oracle : Nat → TempNet)
    (times : Nat → ℤ) (now0 : ℤ) (fuel i : Nat) (rs : RateState)
    (cd : Option (ℤ × ℤ)) (lt : Option ℤ) :
    grabTempRounds delay apikey oracle times now0 (fuel + 1) i rs cd lt
      = (if (checkRateLimit 25 1 rs (times i)).1 then
          tempRoundAfterPermit delay apikey (oracle i) now0 cd lt
            (checkRateLimit 25 1 rs (times i)).2.1 (checkRateLimit 25 1 rs (times i)).2.2 fuel
            (grabTempRounds delay apikey oracle times now0 fuel (i + 1)
              (checkRateLimit 25 1 rs (times i)).2.1 cd lt)
        else ⟨cd, (checkRateLimit 25 1 rs (times i)).2.1, cd, lt, [],
          (checkRateLimit 25 1 rs (times i)).2.2, 1⟩) := rfl

/-- With the network failing on every round, the rate-limited
`grab_forecast` ends every path — refusal, retry, exhaustion — at `None`. -/
theorem grabForecastRounds_allFail (delay : ℤ) (times : Nat → ℤ) :
    ∀ (fuel i : Nat) (rs : RateState),
      (grabForecastRounds delay (fun _ => ForecastNet.failure) times fuel i rs).result
        = none := by
  intro fuel
  induction fuel with
  | zero => intro i rs; rfl
  | succ n ih =>
    intro i rs
    rw [grabForecastRounds_succ]
    by_cases hp : (checkRateLimit 25 1 rs (times i)).1 = true
    · rw [if_pos hp]
      cases n with
      | zero => rfl
      | succ n2 => exact ih (i + 1) _
    · rw [if_neg hp]

/-- C3 (amended): when a fetch round ends in a transport failure, the
scene-module forecast path (`grab_forecast` in `scenes/temperature.py`)
returns whatever its cache holds — stale data is preferred over no data
there — but the rate-limited `grab_forecast` of `utilities/temperature.py`
maintains no cache and returns `None` whenever every round fails, so the
stale-over-none guarantee holds only on the scene-module path. -/
theorem forecast_stale_c3_amended :
    (∀ (delay now : ℤ) (lastTime : Option ℤ) (f : List Interval),
      (sceneGrabForecast delay ForecastNet.failure now (some f) lastTime).result = some f) ∧
    (∀ (delay : ℤ) (times : Nat → ℤ) (m : Nat) (rs : RateState),
      (grabForecast delay (fun _ => ForecastNet.failure) times m rs).result = none) := by
  constructor
  · intro delay now lastTime f
    unfold sceneGrabForecast
    split
    · rfl
    · rfl
  · intro delay times m rs
    exact grabForecastRounds_allFail delay times m 0 rs

/-- C3 counterexample: `DaysForecastScene` holds a stale nonempty forecast
and forces a redraw; `grab_forecast` (utilities/temperature.py) fails on
all three rounds and returns `None`, and line 76 of
`scenes/daysforecast.py` then adopts that `None`, discarding the stale
forecast — stale data is NOT preferred over no data on this path. -/
theorem forecast_stale_lost_c3_cex :
    (grabForecast 2 (fun _ => ForecastNet.failure) (fun _ => 0) 3 initRateState).result
      = none ∧
    dayFetchForecast (some [ivSample]) true
      (grabForecast 2 (fun _ => ForecastNet.failure) (fun _ => 0) 3 initRateState).result
      = none := by decide

/-- C4: a fetch whose rate-limiter consultation is refused (the quota is
exhausted within the current window) issues no network request, performs no
backoff sleep, consults the limiter exactly once — abandoning all remaining
retry rounds — and returns the best available cached value: the cached pair
for `grab_temperature_and_humidity`, and `None` for `grab_forecast`, which
holds no cache. -/
theorem quota_refusal_no_network_c4 :
    (∀ (delay : ℤ) (m : Nat) (k : Option Nat) (oracle : Nat → TempNet)
        (times : Nat → ℤ) (now h0 : ℤ) (rs : RateState)
        (cd : Option (ℤ × ℤ)) (lt : Option ℤ),
      tempCacheFresh cd lt 300 now = false →
      rs.hourStartTime = some h0 → times 0 - h0 < 3600 → 25 ≤ rs.apiCallsThisHour →
      0 < m →
      grabTempHumidity delay m k oracle times now rs cd lt
        = ⟨cd, rs, cd, lt, [], 0, 1⟩) ∧
    (∀ (delay : ℤ) (oracle : Nat → ForecastNet) (times : Nat → ℤ) (h0 : ℤ)
        (rs : RateState) (m : Nat),
      rs.hourStartTime = some h0 → times 0 - h0 < 3600 → 25 ≤ rs.apiCallsThisHour →
      0 < m →
      grabForecast delay oracle times m rs = ⟨none, rs, 0, 0, 1⟩) := by
  constructor
  · intro delay m k oracle times now h0 rs cd lt hfresh hstart hwin hquota hm
    obtain ⟨mm, rfl⟩ : ∃ mm, m = mm + 1 := ⟨m - 1, by omega⟩
    unfold grabTempHumidity
    rw [if_neg (by simp [hfresh])]
    unfold grabTempRounds
    rw [checkRateLimit_refused 25 1 rs (times 0)
      (resetWindow_within rs (times 0) h0 hstart hwin) hquota]
    rfl
  · intro delay oracle times h0 rs m hstart hwin hquota hm
    obtain ⟨mm, rfl⟩ : ∃ mm, m = mm + 1 := ⟨m - 1, by omega⟩
    unfold grabForecast grabForecastRounds
    rw [checkRateLimit_refused 25 1 rs (times 0)
      (resetWindow_within rs (times 0) h0 hstart hwin) hquota]
    rfl

/-- C4 witness: both fetches at a concrete quota-exhausted state. -/
theorem quota_refusal_no_network_c4_witness :
    grabTempHumidity 2 3 (some 7) (fun _ => TempNet.failure) (fun _ => 10) 400
        ⟨some 0, 25, some 0⟩ none none
      = ⟨none, ⟨some 0, 25, some 0⟩, none, none, [], 0, 1⟩ ∧
    grabForecast 2 (fun _ => ForecastNet.failure) (fun _ => 10) 3 ⟨some 0, 25, some 0⟩
      = ⟨none, ⟨some 0, 25, some 0⟩, 0, 0, 1⟩ :=
  ⟨quota_refusal_no_network_c4.1 2 3 (some 7) (fun _ => TempNet.failure) (fun _ => 10)
      400 0 ⟨some 0, 25, some 0⟩ none none (by decide) rfl (by decide) (by decide) (by decide),
    quota_refusal_no_network_c4.2 2 (fun _ => ForecastNet.failure) (fun _ => 10) 0
      ⟨some 0, 25, some 0⟩ 3 rfl (by decide) (by decide) (by decide)⟩

/-- C5 counterexample: the scene-local temperature freshness check of
`DaysForecastScene.day` (line 81 of `scenes/daysforecast.py`) treats an
elapsed time of exactly 300 seconds as still fresh — it refetches only when
strictly more than 300 seconds have passed — whereas the claim requires the
boundary `now - fetchedAt == ttl` to count as NOT fresh (exclusive) at
every freshness check; with the value fetched at t = 0 and now = 300, the
code skips the refetch. -/
theorem freshness_boundary_c5_cex : dayNeedsTempRefetch (some 0) 300 = false := by decide

/-- C5 (amended): the module-level cache check of
`grab_temperature_and_humidity` is exactly the exclusive predicate — fresh
iff `now - fetchedAt < ttl`, false at the boundary, false when `set()`
never ran, with the 299/300 scenario — but the scene-local temperature
check in `DaysForecastScene.day` is inclusive at the boundary: whenever the
elapsed seconds (taken modulo 86400 by `timedelta.seconds`) equal exactly
300, it does NOT refetch. -/
theorem freshness_c5_amended :
    (∀ (v : ℤ × ℤ) (f ttl now : ℤ),
      tempCacheFresh (some v) (some f) ttl now = decide (now - f < ttl)) ∧
    (∀ ttl now : ℤ, tempCacheFresh none none ttl now = false) ∧
    tempCacheFresh (some (20, 50)) (some 0) 300 299 = true ∧
    tempCacheFresh (some (20, 50)) (some 0) 300 300 = false ∧
    (∀ t now : ℤ, (now - t) % 86400 = 300 → dayNeedsTempRefetch (some t) now = false) := by
  refine ⟨fun v f ttl now => rfl, fun ttl now => rfl, by decide, by decide, ?_⟩
  intro t now h
  show decide (300 < (now - t) % 86400) = false
  rw [h]
  decide

/-- C5 witness: the exclusive module-level predicate and the inclusive
scene-local boundary at concrete times. -/
theorem freshness_c5_amended_witness :
    tempCacheFresh (some (1, 2)) (some 5) 300 304 = decide ((304 : ℤ) - 5 < 300) ∧
    dayNeedsTempRefetch (some 1) 301 = false :=
  ⟨freshness_c5_amended.1 (1, 2) 5 300 304,
    freshness_c5_amended.2.2.2.2 1 301 (by decide)⟩

/-- C6: a gateway fetch made while the relevant cache is fresh returns the
cached value immediately, issuing no network request, sleeping nothing and
never consulting the rate limiter (all counters unchanged):
`grab_temperature_and_humidity` with a fresh 5-minute cache, and the
scene-module `grab_forecast` with a fresh one-hour cache (that path never
touches the rate limiter at all).  The rate-limited `grab_forecast` of
`utilities/temperature.py` maintains no cache, so no call to it ever runs
while a relevant cache is fresh. -/
theorem fresh_cache_no_fetch_c6 :
    (∀ (delay : ℤ) (m : Nat) (k : Option Nat) (oracle : Nat → TempNet)
        (times : Nat → ℤ) (now : ℤ) (rs : RateState)
        (cd : Option (ℤ × ℤ)) (lt : Option ℤ),
      tempCacheFresh cd lt 300 now = true →
      grabTempHumidity delay m k oracle times now rs cd lt = ⟨cd, rs, cd, lt, [], 0, 0⟩) ∧
    (∀ (delay now : ℤ) (net : ForecastNet) (cached : Option (List Interval))
        (lastTime : Option ℤ),
      sceneFcFresh cached lastTime now = true →
      sceneGrabForecast delay net now cached lastTime = ⟨cached, cached, lastTime, 0, 0⟩) := by
  constructor
  · intro delay m k oracle times now rs cd lt h
    unfold grabTempHumidity
    rw [if_pos h]
  · intro delay now net cached lastTime h
    unfold sceneGrabForecast
    rw [if_pos h]

/-- C6 witness: both fetches at concrete fresh-cache states. -/
theorem fresh_cache_no_fetch_c6_witness :
    grabTempHumidity 2 1 (some 7) (fun _ => TempNet.failure) (fun _ => 10) 100
        initRateState (some (20, 50)) (some 0)
      = ⟨some (20, 50), initRateState, some (20, 50), some 0, [], 0, 0⟩ ∧
    sceneGrabForecast 2 ForecastNet.failure 100 (some [ivSample]) (some 0)
      = ⟨some [ivSample], some [ivSample], some 0, 0, 0⟩ :=
  ⟨fresh_cache_no_fetch_c6.1 2 1 (some 7) (fun _ => TempNet.failure) (fun _ => 10) 100
      initRateState (some (20, 50)) (some 0) (by decide),
    fresh_cache_no_fetch_c6.2 2 100 ForecastNet.failure (some [ivSample]) (some 0) (by decide)⟩

/-- C7 counterexample: a successful forecast response whose single day is
missing `temperatureMax` is returned by `grab_forecast`
(utilities/temperature.py) exactly as received — the field is still absent
(`none`), not substituted by the sentinel 0.  (The consumer on line 106 of
`scenes/daysforecast.py` indexes `day['values']['temperatureMax']`
directly, so such a day raises `KeyError` downstream instead of rendering a
sentinel.) -/
theorem forecast_missing_field_c7_cex :
    (grabForecast 2 (fun _ => ForecastNet.response [[ivNoMax]]) (fun _ => 0) 3
        initRateState).result = some [ivNoMax] ∧
    ivNoMax.values.temperatureMax = none := by decide

/-- C7 (amended): the sentinel substitution exists only in
`grab_temperature_and_humidity`, where a missing `temperature` or
`humidity` field of an otherwise-successful response becomes 0 while the
fetch still succeeds; the forecast fetch performs no per-field substitution
and returns the intervals of a successful response unmodified. -/
theorem field_sentinel_c7_amended :
    (∀ (delay : ℤ) (m : Nat) (k : Option Nat) (oracle : Nat → TempNet)
        (times : Nat → ℤ) (now : ℤ) (hOpt tOpt : Option ℤ),
      oracle 0 = TempNet.values tOpt hOpt → 0 < m →
      (grabTempHumidity delay m k oracle times now initRateState none none).result
        = some (tOpt.getD 0, hOpt.getD 0)) ∧
    (∀ (delay : ℤ) (m : Nat) (oracle : Nat → ForecastNet) (times : Nat → ℤ)
        (a : Interval) (l : List Interval),
      oracle 0 = ForecastNet.response [a :: l] → 0 < m →
      (grabForecast delay oracle times m initRateState).result = some (a :: l)) := by
  constructor
  · intro delay m k oracle times now hOpt tOpt h0 hm
    obtain ⟨mm, rfl⟩ : ∃ mm, m = mm + 1 := ⟨m - 1, by omega⟩
    unfold grabTempHumidity
    rw [if_neg (by simp [tempCacheFresh])]
    rw [grabTempRounds_succ, checkRateLimit_init 25 1 (times 0) (by norm_num), h0]
    rfl
  · intro delay m oracle times a l h0 hm
    obtain ⟨mm, rfl⟩ : ∃ mm, m = mm + 1 := ⟨m - 1, by omega⟩
    unfold grabForecast
    rw [grabForecastRounds_succ, checkRateLimit_init 25 1 (times 0) (by norm_num), h0]
    rfl

/-- C7 witness: a missing temperature substituted by 0, and a complete
forecast response passed through unchanged. -/
theorem field_sentinel_c7_amended_witness :
    (grabTempHumidity 2 1 none (fun _ => TempNet.values none (some 55)) (fun _ => 0) 50
        initRateState none none).result = some (0, 55) ∧
    (grabForecast 2 (fun _ => ForecastNet.response [[ivSample]]) (fun _ => 0) 3
        initRateState).result = some [ivSample] :=
  ⟨field_sentinel_c7_amended.1 2 1 none (fun _ => TempNet.values none (some 55))
      (fun _ => 0) 50 (some 55) none rfl (by decide),
    field_sentinel_c7_amended.2 2 3 (fun _ => ForecastNet.response [[ivSample]])
      (fun _ => 0) ivSample [] rfl (by decide)⟩

/-- C8 counterexample: with night start configured at 22:00 (second 79200
of the day) and night end at 06:00, the very first tick after startup
arriving exactly at the night-start second returns early WITHOUT running
the redraw body — it only re-arms the forced flag — so `shouldRedraw` is
NOT true on the very first tick regardless of inputs. -/
theorem first_tick_boundary_c8_cex :
    (dayTick 79200 21600 79200 0 initDayState).2 = false := by decide

/-- C8 (amended): the coordinator starts with the forced flag set, so the
first tick redraws for every input that is not an exact night-boundary
second and has no flight data on screen; a tick that reports true always
clears the forced flag (ForcedNextTick returns to Idle after one true
report); and an idle tick in the same wall-clock hour, away from the night
boundaries and with no flight data, reports false. -/
theorem redraw_c8_amended :
    (∀ (ns ne s d : Nat), s ≠ ns → s ≠ ne → d = 0 →
      (dayTick ns ne s d initDayState).2 = true) ∧
    (∀ (ns ne s d : Nat) (st : DayState),
      (dayTick ns ne s d st).2 = true → (dayTick ns ne s d st).1.redrawForecast = false) ∧
    (∀ (ns ne s : Nat) (st : DayState),
      st.redrawForecast = false → st.lastHour = some (s / 3600) → s ≠ ns → s ≠ ne →
      (dayTick ns ne s 0 st).2 = false) := by
  refine ⟨?_, ?_, ?_⟩
  · intro ns ne s d hs1 hs2 hd
    subst hd
    simp only [dayTick]
    rw [if_neg (not_or.mpr ⟨hs1, hs2⟩), if_neg (by simp)]
    have hc : initDayState.lastHour ≠ some (s / 3600) ∨ initDayState.redrawForecast = true :=
      Or.inr rfl
    rw [if_pos hc]
  · intro ns ne s d st
    simp only [dayTick]
    split
    · intro h
      simp at h
    · split
      · intro h
        simp at h
      · split
        · intro h
          rfl
        · intro h
          simp at h
  · intro ns ne s st hIdle hHour hs1 hs2
    simp only [dayTick]
    rw [if_neg (not_or.mpr ⟨hs1, hs2⟩), if_neg (by simp)]
    rw [if_neg (by simp [hHour, hIdle])]

/-- C8 witness: the three amended clauses at concrete ticks (night window
22:00-06:00; first tick at second 3601, idle tick at second 3700 of the
same hour). -/
theorem redraw_c8_amended_witness :
    (dayTick 79200 21600 3601 0 initDayState).2 = true ∧
    (dayTick 79200 21600 3601 0 initDayState).1.redrawForecast = false ∧
    (dayTick 79200 21600 3700 0 ⟨false, some 1⟩).2 = false :=
  ⟨redraw_c8_amended.1 79200 21600 3601 0 (by decide) (by decide) rfl,
    redraw_c8_amended.2.1 79200 21600 3601 0 initDayState (by decide),
    redraw_c8_amended.2.2 79200 21600 3700 ⟨false, some 1⟩ rfl (by decide) (by decide)
      (by decide)⟩

/-- C9 counterexample: a process started without an API key (the `config`
module lacked it, so `TOMORROW_API_KEY = None`) does NOT have its network path
disabled: from the fresh rate-limiter state with a cold cache, one
`grab_temperature_and_humidity` round issues an HTTP request whose `apikey`
parameter is the missing key (`none`) and consumes a quota slot
(`_api_calls_this_hour` becomes 1) — nothing behaves as if the quota were
exhausted, and the invalid configuration goes out on the wire. -/
theorem missing_key_request_c9_cex :
    (grabTempHumidity 2 1 none (fun _ => TempNet.failure) (fun _ => 0) 400
        initRateState none none).requests = [none] ∧
    (grabTempHumidity 2 1 none (fun _ => TempNet.failure) (fun _ => 0) 400
        initRateState none none).rate.apiCallsThisHour = 1 := by decide

/-- Every request the temperature retry loop issues carries the configured
`apikey` value verbatim. -/
theorem grabTempRounds_requests_eq (delay : ℤ) (k : Option Nat) (oracle : Nat → TempNet)
    (times : Nat → ℤ) (now0 : ℤ) :
    ∀ (fuel i : Nat) (rs : RateState) (cd : Option (ℤ × ℤ)) (lt : Option ℤ)
      (r : Option Nat),
      r ∈ (grabTempRounds delay k oracle times now0 fuel i rs cd lt).requests → r = k := by
  intro fuel
  induction fuel with
  | zero =>
    intro i rs cd lt r hr
    rw [show grabTempRounds delay k oracle times now0 0 i rs cd lt
      = ⟨cd, rs, cd, lt, [], 0, 0⟩ from rfl] at hr
    simp at hr
  | succ n ih =>
    intro i rs cd lt r hr
    rw [grabTempRounds_succ] at hr
    by_cases hp : (checkRateLimit 25 1 rs (times i)).1 = true
    · rw [if_pos hp] at hr
      cases hoi : oracle i with
      | values t h =>
        rw [hoi] at hr
        simp [tempRoundAfterPermit] at hr
        exact hr
      | failure =>
        rw [hoi] at hr
        cases n with
        | zero =>
          simp [tempRoundAfterPermit] at hr
          exact hr
        | succ n2 =>
          simp [tempRoundAfterPermit] at hr
          rcases hr with h | h
          · exact h
          · exact ih (i + 1) _ cd lt r h
    · rw [if_neg hp] at hr
      simp at hr

/-- C9 (amended): a missing API key does not disable the gateway's network
path.  Every request a temperature fetch issues carries the configured key
verbatim — `none` when the key is missing — and a fetch from the fresh
process state with a cold cache issues at least one such request whenever
at least one round is allowed, consuming quota as usual; no startup check
reports the configuration error or short-circuits the fetch. -/
theorem missing_key_c9_amended :
    (∀ (delay : ℤ) (k : Option Nat) (oracle : Nat → TempNet) (times : Nat → ℤ)
        (now0 : ℤ) (fuel i : Nat) (rs : RateState) (cd : Option (ℤ × ℤ))
        (lt : Option ℤ) (r : Option Nat),
      r ∈ (grabTempRounds delay k oracle times now0 fuel i rs cd lt).requests → r = k) ∧
    (∀ (delay : ℤ) (k : Option Nat) (oracle : Nat → TempNet) (times : Nat → ℤ)
        (now : ℤ) (m : Nat), 0 < m →
      (grabTempHumidity delay m k oracle times now initRateState none none).requests
        ≠ []) := by
  refine ⟨fun delay k oracle times now0 => grabTempRounds_requests_eq delay k oracle times now0, ?_⟩
  intro delay k oracle times now m hm
  obtain ⟨mm, rfl⟩ : ∃ mm, m = mm + 1 := ⟨m - 1, by omega⟩
  unfold grabTempHumidity
  rw [if_neg (by simp [tempCacheFresh])]
  rw [grabTempRounds_succ, checkRateLimit_init 25 1 (times 0) (by norm_num)]
  cases hoi : oracle 0 with
  | values t h =>
    simp [tempRoundAfterPermit]
  | failure =>
    cases mm with
    | zero => simp [tempRoundAfterPermit]
    | succ n2 => simp [tempRoundAfterPermit]

/-- C9 witness: the key carried by a concrete keyless fetch, and the
nonempty request list of a concrete keyless fetch. -/
theorem missing_key_c9_amended_witness :
    ((none : Option Nat) = none) ∧
    (grabTempHumidity 2 1 none (fun _ => TempNet.values (some 3) (some 4)) (fun _ => 0)
        400 initRateState none none).requests ≠ [] :=
  ⟨missing_key_c9_amended.1 2 none (fun _ => TempNet.failure) (fun _ => 0) 400 1 0
      initRateState none none none (by decide),
    missing_key_c9_amended.2 2 none (fun _ => TempNet.values (some 3) (some 4))
      (fun _ => 0) 400 1 (by decide)⟩

/-- Along the retry loop the temperature cache globals either stay exactly
as given, or are both overwritten together with the successful result. -/
theorem grabTempRounds_cache (delay : ℤ) (k : Option Nat) (oracle : Nat → TempNet)
    (times : Nat → ℤ) (now0 : ℤ) :
    ∀ (fuel i : Nat) (rs : RateState) (cd : Option (ℤ × ℤ)) (lt : Option ℤ),
      ((grabTempRounds delay k oracle times now0 fuel i rs cd lt).cachedTempData = cd ∧
        (grabTempRounds delay k oracle times now0 fuel i rs cd lt).lastTempFetchTime = lt) ∨
      ∃ p, (grabTempRounds delay k oracle times now0 fuel i rs cd lt).cachedTempData = some p ∧
        (grabTempRounds delay k oracle times now0 fuel i rs cd lt).lastTempFetchTime = some now0 ∧
        (grabTempRounds delay k oracle times now0 fuel i rs cd lt).result = some p := by
  intro fuel
  induction fuel with
  | zero => intro i rs cd lt; exact Or.inl ⟨rfl, rfl⟩
  | succ n ih =>
    intro i rs cd lt
    rw [grabTempRounds_succ]
    by_cases hp : (checkRateLimit 25 1 rs (times i)).1 = true
    · rw [if_pos hp]
      cases hoi : oracle i with
      | values t h =>
        exact Or.inr ⟨(t.getD 0, h.getD 0), rfl, rfl, rfl⟩
      | failure =>
        cases n with
        | zero => exact Or.inl ⟨rfl, rfl⟩
        | succ n2 => exact ih (i + 1) _ cd lt
    · rw [if_neg hp]
      exact Or.inl ⟨rfl, rfl⟩

/-- C10: on every path of `grab_temperature_and_humidity` — fresh cache,
rate-limit refusal, transport or parse failure, retries exhausted, or
success — the pair (`_cached_temp_data`, `_last_temp_fetch_time`) is either
left exactly as it was before the call, or both fields are assigned
together, immediately after a fully successful fetch and parse, to the
returned value and the call's entry timestamp; the two fields are never
updated partially. -/
theorem temp_cache_atomic_c10 (delay : ℤ) (m : Nat) (k : Option Nat)
    (oracle : Nat → TempNet) (times : Nat → ℤ) (now : ℤ) (rs : RateState)
    (cd : Option (ℤ × ℤ)) (lt : Option ℤ) :
    ((grabTempHumidity delay m k oracle times now rs cd lt).cachedTempData = cd ∧
      (grabTempHumidity delay m k oracle times now rs cd lt).lastTempFetchTime = lt) ∨
    ∃ p, (grabTempHumidity delay m k oracle times now rs cd lt).cachedTempData = some p ∧
      (grabTempHumidity delay m k oracle times now rs cd lt).lastTempFetchTime = some now ∧
      (grabTempHumidity delay m k oracle times now rs cd lt).result = some p := by
  unfold grabTempHumidity
  by_cases h : tempCacheFresh cd lt 300 now = true
  · rw [if_pos h]
    exact Or.inl ⟨rfl, rfl⟩
  · rw [if_neg h]
    exact grabTempRounds_cache delay k oracle times now m 0 rs cd lt
